import Mathlib

/-!
Shallow embedding of the voice_transcriber application (src/app.py): the
float32-to-int16 sample conversion, the live-recording path, and the
multi-strategy upload transcription chain, together with theorems checking
the natural-language specification against this code.
-/

namespace VoiceTranscriber

/-- The language selector values offered by the UI
(selectbox over auto, en, ur, hi, fr, es). -/
inductive Lang
  | auto | en | ur | hi | fr | es
deriving DecidableEq

/-- Embeds `kwargs = dict() if language == "auto" else dict(language=language)`:
the generate keyword arguments carry the language hint unless the selection is
auto, in which case no hint is passed. -/
def kwargsOf (language : Lang) : Option Lang :=
  if language = Lang.auto then none else some language

/-- Raw file bytes (the uploaded file's content, stored as-is). -/
abbrev Bytes := List Nat

/-- Error messages carried by raised exceptions, as the code only ever uses
their string rendering. -/
abbrev Err := String

/-- Truncation of a rational toward zero, the conversion a numpy cast of a
float to an integer type performs on in-range values. -/
def truncQ (x : ℚ) : ℤ :=
  if 0 ≤ x then ⌊x⌋ else ⌈x⌉

/-- Two's-complement wrap-around into the int16 range, the effect of the numpy
int16 cast on out-of-range integers: no exception and no clamping. -/
def wrap16 (n : ℤ) : ℤ :=
  (n + 32768) % 65536 - 32768

/-- Embeds both conversion sites, `np.int16(audio * 32767)` (line 56) and
`(audio_data * 32767).astype(np.int16)` (line 128): multiply the float sample
by 32767, truncate toward zero, and wrap into int16. There is no rounding and
no explicit clipping in the source. -/
def float_to_int16 (x : ℚ) : ℤ :=
  wrap16 (truncQ (x * 32767))

/-- The spec's stated conversion, for comparison with `float_to_int16`:
round the scaled sample and clamp the result into the int16 range. -/
def spec_round_clip (x : ℚ) : ℤ :=
  max (-32768) (min 32767 (round (x * 32767)))

/-- Contents of a temporary file handed to the transcriber: either the raw
uploaded bytes written as-is (lines 90-92), or a WAV file freshly written by
scipy with a sample rate and int16 samples (lines 59-60, 127-128). -/
inductive FileContent
  | raw (bytes : Bytes)
  | wav (sampleRate : Nat) (samples : List Int)
deriving DecidableEq

/-- One invocation of the inference backend: the content of the file whose
path is passed, and the language hint from the generate keyword arguments
(none when omitted). -/
structure Call where
  content : FileContent
  hint : Option Lang
deriving DecidableEq

/-- The environment the script runs against: whether librosa imported
successfully, the inference backend (the whisper pipeline, an opaque
collaborator that returns text or raises), and the librosa load capability
(decode plus resample to 16 kHz mono floats, or raise). -/
structure Env where
  librosaAvailable : Bool
  backend : FileContent → Option Lang → Except Err String
  librosaLoad : Bytes → Except Err (List ℚ)

/-- Outcome of the upload path as surfaced to the user. -/
inductive UploadOutcome
  | transcribed (text : String)
  | noResult
  | failed (err : Err)
deriving DecidableEq

/-- Diagnostic messages emitted along the chain: the warning after the direct
attempt fails, the warning after the librosa attempt fails, and the error
banner when all approaches failed. -/
inductive Event
  | warnDirect (e : Err)
  | warnLibrosa (e : Err)
  | errorAll (e : Err)
deriving DecidableEq

/-- Full observable behaviour of one run of the upload transcription block:
the surfaced outcome, the backend calls made in order, and the diagnostics
recorded in order. -/
structure ChainTrace where
  outcome : UploadOutcome
  calls : List Call
  warnings : List Event
deriving DecidableEq

/-- Embeds the final display policy (lines 146-150): a truthy (non-empty)
transcription string is shown, the empty string falls to the
no-transcription-result branch. -/
def displayOutcome (t : String) : UploadOutcome :=
  if t = "" then UploadOutcome.noResult else UploadOutcome.transcribed t

/-- Embeds Approach 3 (lines 135-142): call the transcriber on the original
temporary file with no language keyword; on success display the text, on
failure show the all-approaches-failed error and re-raise, which the outer
handler surfaces. -/
def stage3 (env : Env) (bytes : Bytes)
    (callsSoFar : List Call) (warnSoFar : List Event) : ChainTrace :=
  match env.backend (FileContent.raw bytes) none with
  | Except.ok t =>
      ⟨displayOutcome t, callsSoFar ++ [⟨FileContent.raw bytes, none⟩], warnSoFar⟩
  | Except.error altError =>
      ⟨UploadOutcome.failed altError,
       callsSoFar ++ [⟨FileContent.raw bytes, none⟩],
       warnSoFar ++ [Event.errorAll altError]⟩

/-- Embeds Approach 2 (lines 120-132), entered when the direct attempt failed
and librosa is available: load the original file through librosa at 16 kHz,
write the int16-converted samples to a fresh WAV, and transcribe that with the
same language keyword. Any exception in this block (load failure or backend
failure) is caught, a warning recorded, and Approach 3 attempted. -/
def stage2 (env : Env) (bytes : Bytes) (kwargs : Option Lang)
    (directError : Err) : ChainTrace :=
  let calls1 : List Call := [⟨FileContent.raw bytes, kwargs⟩]
  let warn1 : List Event := [Event.warnDirect directError]
  match env.librosaLoad bytes with
  | Except.ok audioData =>
      let wavFile := FileContent.wav 16000 (audioData.map float_to_int16)
      match env.backend wavFile kwargs with
      | Except.ok t =>
          ⟨displayOutcome t, calls1 ++ [⟨wavFile, kwargs⟩], warn1⟩
      | Except.error librosaError =>
          stage3 env bytes (calls1 ++ [⟨wavFile, kwargs⟩])
            (warn1 ++ [Event.warnLibrosa librosaError])
  | Except.error loadError =>
      stage3 env bytes calls1 (warn1 ++ [Event.warnLibrosa loadError])

/-- Embeds the upload transcription block (lines 101-154). The uploaded bytes
were saved as-is to a temporary file (lines 90-92). Approach 1 transcribes
that file with the language keyword; on failure, if librosa is available the
chain continues with Approach 2, otherwise the direct error is re-raised and
surfaced by the outer handler (lines 143-144, 152-154). -/
def uploadChain (env : Env) (bytes : Bytes) (language : Lang) : ChainTrace :=
  let kwargs := kwargsOf language
  match env.backend (FileContent.raw bytes) kwargs with
  | Except.ok t =>
      ⟨displayOutcome t, [⟨FileContent.raw bytes, kwargs⟩], []⟩
  | Except.error directError =>
      if env.librosaAvailable then
        stage2 env bytes kwargs directError
      else
        ⟨UploadOutcome.failed directError,
         [⟨FileContent.raw bytes, kwargs⟩],
         [Event.warnDirect directError]⟩

/-- Modelled from the spec: the decode capability (librosa.load) applied to an
already-canonical mono 16 kHz int16 WAV file does not resample and returns the
samples as normalized floats; following the library convention named by the
spec (floats normalized into the unit range), the int16 sample v is decoded as
v divided by 32768. -/
def librosaLoadCanonical (samples : List ℤ) : List ℚ :=
  samples.map (fun (v : ℤ) => (v : ℚ) / 32768)

/-- The Re-decoded normalization round trip on an already-canonical WAV file:
decode to floats via librosa, then re-encode via the conversion at line 128. -/
def renormalizeCanonical (samples : List ℤ) : List ℤ :=
  (librosaLoadCanonical samples).map float_to_int16

/-- Moves an integer one count toward zero, leaving zero fixed: the actual
per-sample effect of the canonical-WAV round trip. -/
def stepTowardZero (v : ℤ) : ℤ :=
  if 0 < v then v - 1 else if v < 0 then v + 1 else 0

/-- A captured audio buffer: samples (mono float stream from the device),
sample rate and channel count as configured by the caller. -/
structure Capture where
  samples : List ℚ
  samplerate : Nat
  channels : Nat
deriving DecidableEq

/-- Modelled from the spec: sd.rec followed by sd.wait, the capture-device
boundary, is not part of this repository; per the stated contract it blocks
until exactly the requested number of frames has been captured from the
default input device and returns them as floats. The device is modelled as a
function from frame index to sample value. -/
def sd_rec_wait (device : Nat → ℚ) (frames : Nat)
    (samplerate : Nat) (channels : Nat) : Capture :=
  ⟨(List.range frames).map device, samplerate, channels⟩

/-- Embeds line 51: sd.rec is asked for int(duration times 16000) frames at
16000 Hz, one channel, float32. The duration comes from an integer slider, so
the int conversion is the identity and the frame count is duration * 16000. -/
def recordAudio (device : Nat → ℚ) (duration : Nat) : Capture :=
  sd_rec_wait device (duration * 16000) 16000 1

/-- Outcome of the live-recording path as surfaced to the user: the
transcription text area, or the recording-failed error banner (lines 68-72). -/
inductive RecordOutcome
  | transcribed (text : String)
  | recordingFailed (err : Err)
deriving DecidableEq

/-- Observable behaviour of one run of the recording block: the surfaced
outcome and the backend calls made. -/
structure RecordTrace where
  outcome : RecordOutcome
  calls : List Call
deriving DecidableEq

/-- Embeds the recording block (lines 47-72): capture duration * 16000 frames,
convert to int16, write a 16 kHz WAV, and transcribe it once with the language
keyword; any exception is caught by the single handler and reported as a
recording failure. -/
def recordPath (backend : FileContent → Option Lang → Except Err String)
    (device : Nat → ℚ) (duration : Nat) (language : Lang) : RecordTrace :=
  let audioInt16 := (recordAudio device duration).samples.map float_to_int16
  let wavFile := FileContent.wav 16000 audioInt16
  let kwargs := kwargsOf language
  match backend wavFile kwargs with
  | Except.ok t => ⟨RecordOutcome.transcribed t, [⟨wavFile, kwargs⟩]⟩
  | Except.error e => ⟨RecordOutcome.recordingFailed e, [⟨wavFile, kwargs⟩]⟩

/-- The Re-decoded stage fails: either librosa.load raises, or it succeeds and
the backend raises on the freshly written normalized WAV. -/
def redecodedStageFails (env : Env) (bytes : Bytes) (kwargs : Option Lang) : Prop :=
  match env.librosaLoad bytes with
  | Except.error _ => True
  | Except.ok s =>
      ∃ e, env.backend (FileContent.wav 16000 (s.map float_to_int16)) kwargs
        = Except.error e

/-- Environment for the C1 counterexample: librosa did not import, the backend
fails whenever a language hint is passed but succeeds without one. -/
def envC1 : Env where
  librosaAvailable := false
  backend := fun _ h =>
    match h with
    | some _ => Except.error "direct boom"
    | none => Except.ok "hello"
  librosaLoad := fun _ => Except.error "librosa unavailable"

/-- Environment for the C1 witness: librosa available, the backend fails on
every file and hint combination except the unhinted retry. -/
def envC1w : Env where
  librosaAvailable := true
  backend := fun c h =>
    match c, h with
    | FileContent.raw _, some _ => Except.error "e1"
    | FileContent.wav _ _, _ => Except.error "e2"
    | FileContent.raw _, none => Except.ok "auto"
  librosaLoad := fun _ => Except.ok []

/-- Environment for C2: librosa available, the backend fails on all three
strategies with three distinct error messages. -/
def envC2 : Env where
  librosaAvailable := true
  backend := fun c h =>
    match c, h with
    | FileContent.raw _, some _ => Except.error "e1"
    | FileContent.wav _ _, _ => Except.error "e2"
    | FileContent.raw _, none => Except.error "e3"
  librosaLoad := fun _ => Except.ok []

/-- Environment for the C3 counterexample: the backend succeeds immediately
and returns a whitespace-only string. -/
def envC3 : Env where
  librosaAvailable := true
  backend := fun _ _ => Except.ok " "
  librosaLoad := fun _ => Except.ok []

/-- Environment for the C3 witness: the backend succeeds immediately and
returns the empty string. -/
def envC3w : Env where
  librosaAvailable := true
  backend := fun _ _ => Except.ok ""
  librosaLoad := fun _ => Except.ok []

/-- Environment for the C5 counterexample: the backend succeeds on the raw
file directly, and the decode capability would have produced a normalized
non-empty sample list had it been consulted. -/
def envC5 : Env where
  librosaAvailable := true
  backend := fun c _ =>
    match c with
    | FileContent.raw _ => Except.ok "hi"
    | FileContent.wav _ _ => Except.error "never"
  librosaLoad := fun _ => Except.ok [(1 : ℚ)/2]

/-- A backend that always raises, for exercising the recording-path failure
handler. -/
def failingBackend : FileContent → Option Lang → Except Err String :=
  fun _ _ => Except.error "mic broke"

/-- A capture device producing silence. -/
def silentDevice : Nat → ℚ :=
  fun _ => 0

/-- Environment for the C6 witness: direct fails, librosa decodes to an empty
sample list, and the backend succeeds on the re-decoded WAV. -/
def envC6 : Env where
  librosaAvailable := true
  backend := fun c _ =>
    match c with
    | FileContent.raw _ => Except.error "e1"
    | FileContent.wav _ _ => Except.ok "redecoded text"
  librosaLoad := fun _ => Except.ok []

/-- Helper: for a scaled sample with the source factor 32767, truncation
toward zero stays strictly inside the int16 range whenever the input float is
in the unit interval. -/
theorem truncQ_bounds (x : ℚ) (h1 : -1 ≤ x) (h2 : x ≤ 1) :
    -32767 ≤ truncQ (x * 32767) ∧ truncQ (x * 32767) ≤ 32767 := by
  have hlo : (-32767 : ℚ) ≤ x * 32767 := by nlinarith
  have hhi : x * 32767 ≤ 32767 := by nlinarith
  unfold truncQ
  by_cases h : (0:ℚ) ≤ x * 32767
  · rw [if_pos h]
    constructor
    · have h0 : (0:ℤ) ≤ ⌊x * 32767⌋ := Int.floor_nonneg.mpr h
      omega
    · have := Int.floor_le_floor (α := ℚ) hhi
      simpa using this
  · rw [if_neg h]
    constructor
    · have := Int.ceil_le_ceil (α := ℚ) hlo
      simpa using this
    · have h0 : ⌈x * 32767⌉ ≤ 0 := Int.ceil_le.mpr (by push_cast; exact (not_le.mp h).le)
      omega

/-- Helper: the per-sample effect of decoding an in-range int16 sample by
dividing by 32768 and re-encoding it through the source conversion (multiply
by 32767, truncate toward zero, wrap): every sample moves one count toward
zero. -/
theorem roundtrip_step (v : ℤ) (h1 : -32768 ≤ v) (h2 : v ≤ 32767) :
    float_to_int16 ((v : ℚ) / 32768) = stepTowardZero v := by
  have h1q : (-32768 : ℚ) ≤ (v : ℚ) := by exact_mod_cast h1
  have h2q : (v : ℚ) ≤ 32767 := by exact_mod_cast h2
  unfold float_to_int16 truncQ stepTowardZero
  rcases lt_trichotomy v 0 with hv | hv | hv
  · have hvq : (v : ℚ) < 0 := by exact_mod_cast hv
    have hy : (v : ℚ) / 32768 * 32767 < 0 := by
      apply mul_neg_of_neg_of_pos
      · exact div_neg_of_neg_of_pos hvq (by norm_num)
      · norm_num
    rw [if_neg (by linarith)]
    have hceil : ⌈(v : ℚ) / 32768 * 32767⌉ = v + 1 := by
      rw [Int.ceil_eq_iff]
      constructor
      · push_cast
        rw [div_mul_eq_mul_div, lt_div_iff₀ (by norm_num : (0:ℚ) < 32768)]
        nlinarith
      · push_cast
        rw [div_mul_eq_mul_div, div_le_iff₀ (by norm_num : (0:ℚ) < 32768)]
        nlinarith
    rw [hceil]
    unfold wrap16
    rw [if_neg (by omega), if_pos hv]
    omega
  · subst hv
    norm_num [wrap16]
  · have hy : 0 ≤ (v : ℚ) / 32768 * 32767 := by positivity
    rw [if_pos hy]
    have hvq : (0 : ℚ) < v := by exact_mod_cast hv
    have hfloor : ⌊(v : ℚ) / 32768 * 32767⌋ = v - 1 := by
      rw [Int.floor_eq_iff]
      constructor
      · push_cast
        rw [div_mul_eq_mul_div, le_div_iff₀ (by norm_num : (0:ℚ) < 32768)]
        nlinarith
      · push_cast
        rw [div_mul_eq_mul_div, div_lt_iff₀ (by norm_num : (0:ℚ) < 32768)]
        nlinarith
    rw [hfloor]
    unfold wrap16
    rw [if_pos hv]
    omega

/-- C4 counterexample: the source conversion is not round-then-clip. At the
in-range sample 1/16384 the source computes 1 (truncation toward zero of
1.9999) while the conversion stated by the spec computes 2 (rounding). -/
theorem C4_counterexample :
    float_to_int16 (1/16384) = 1 ∧ spec_round_clip (1/16384) = 2 ∧
      float_to_int16 (1/16384) ≠ spec_round_clip (1/16384) := by
  refine ⟨?_, ?_, ?_⟩
  · norm_num [float_to_int16, truncQ, wrap16]
  · norm_num [spec_round_clip, round_eq]
  · norm_num [float_to_int16, spec_round_clip, truncQ, wrap16, round_eq]

/-- C4 (amended): the conversion at both sites (line 56 and line 128)
truncates toward zero with no rounding and no explicit clipping; still, for
every sample x in the unit interval the output lies in the int16 range, and
the two's-complement wrap is the identity (no overflow, in particular none at
x equal to plus or minus one). -/
theorem C4_theorem (x : ℚ) (h1 : -1 ≤ x) (h2 : x ≤ 1) :
    -32768 ≤ float_to_int16 x ∧ float_to_int16 x ≤ 32767 ∧
      float_to_int16 x = truncQ (x * 32767) := by
  obtain ⟨hl, hr⟩ := truncQ_bounds x h1 h2
  refine ⟨?_, ?_, ?_⟩
  · unfold float_to_int16 wrap16
    omega
  · unfold float_to_int16 wrap16
    omega
  · unfold float_to_int16 wrap16
    omega

/-- C4 witness: at the boundary sample x equal to one the conversion yields
32767 with no overflow. -/
theorem C4_witness :
    -32768 ≤ float_to_int16 1 ∧ float_to_int16 1 ≤ 32767 ∧
      float_to_int16 1 = truncQ (1 * 32767) :=
  C4_theorem 1 (by norm_num) (by norm_num)

/-- C7 counterexample: re-normalizing an already-canonical WAV is not a
no-op on the samples. The canonical in-range sample list consisting of the
single sample 1 comes back as the single sample 0. -/
theorem C7_counterexample :
    renormalizeCanonical [1] = [0] ∧ renormalizeCanonical [1] ≠ [1] := by
  constructor
  · norm_num [renormalizeCanonical, librosaLoadCanonical, float_to_int16, truncQ, wrap16]
  · norm_num [renormalizeCanonical, librosaLoadCanonical, float_to_int16, truncQ, wrap16]

/-- C7 (amended): the canonical-WAV round trip (librosa decode by 32768,
re-encode by 32767 with truncation) moves every in-range sample exactly one
count toward zero, leaving only zero samples unchanged; it preserves the
mono 16 kHz int16 format but is not bit-identical on the samples. -/
theorem C7_theorem (s : List ℤ) (h : ∀ v ∈ s, -32768 ≤ v ∧ v ≤ 32767) :
    renormalizeCanonical s = s.map stepTowardZero := by
  unfold renormalizeCanonical librosaLoadCanonical
  rw [List.map_map]
  apply List.map_congr_left
  intro v hv
  exact roundtrip_step v (h v hv).1 (h v hv).2

/-- C7 witness: the round trip on the concrete canonical sample list with
samples 1, 16384, -32768, 32767 and 0 equals the one-step-toward-zero map. -/
theorem C7_witness :
    renormalizeCanonical [1, 16384, -32768, 32767, 0]
      = List.map stepTowardZero [1, 16384, -32768, 32767, 0] :=
  C7_theorem [1, 16384, -32768, 32767, 0] (by decide)

/-- Helper: every backend call made by the upload chain is one of three
shapes: the direct attempt on the raw uploaded bytes with the language
keyword, the unhinted attempt on the same raw bytes with no keyword, or the
re-decoded attempt on a fresh 16 kHz WAV holding exactly the int16-converted
librosa decode of the uploaded bytes. -/
theorem uploadChain_calls_shape (env : Env) (b : Bytes) (lang : Lang) :
    ∀ c ∈ (uploadChain env b lang).calls,
      c = ⟨FileContent.raw b, kwargsOf lang⟩ ∨
      c = ⟨FileContent.raw b, none⟩ ∨
      ∃ s, env.librosaLoad b = Except.ok s ∧
        c = ⟨FileContent.wav 16000 (s.map float_to_int16), kwargsOf lang⟩ := by
  intro c hc
  unfold uploadChain at hc
  cases hb : env.backend (FileContent.raw b) (kwargsOf lang) with
  | ok t =>
    simp [hb] at hc
    simp [hc]
  | error e =>
    simp only [hb] at hc
    by_cases hl : env.librosaAvailable
    · simp only [hl, if_true] at hc
      unfold stage2 at hc
      cases hld : env.librosaLoad b with
      | ok s =>
        simp only [hld] at hc
        cases hw : env.backend (FileContent.wav 16000 (s.map float_to_int16)) (kwargsOf lang) with
        | ok t =>
          simp [hw] at hc
          rcases hc with h | h
          · simp [h]
          · exact Or.inr (Or.inr ⟨s, rfl, h⟩)
        | error e2 =>
          simp only [hw] at hc
          unfold stage3 at hc
          cases h3 : env.backend (FileContent.raw b) none with
          | ok t =>
            simp [h3] at hc
            rcases hc with h | h | h
            · simp [h]
            · exact Or.inr (Or.inr ⟨s, rfl, h⟩)
            · simp [h]
          | error e3 =>
            simp [h3] at hc
            rcases hc with h | h | h
            · simp [h]
            · exact Or.inr (Or.inr ⟨s, rfl, h⟩)
            · simp [h]
      | error el =>
        simp only [hld] at hc
        unfold stage3 at hc
        cases h3 : env.backend (FileContent.raw b) none with
        | ok t =>
          simp [h3] at hc
          rcases hc with h | h <;> simp [h]
        | error e3 =>
          simp [h3] at hc
          rcases hc with h | h <;> simp [h]
    · simp [hl] at hc
      simp [hc]

/-- C1 counterexample: with librosa unavailable and a backend that fails with
the language hint but would succeed without it, the chain terminates with the
direct error and never attempts the unhinted strategy. -/
theorem C1_counterexample :
    (uploadChain envC1 [0] Lang.en).outcome = UploadOutcome.failed "direct boom" ∧
      Call.mk (FileContent.raw [0]) none ∉ (uploadChain envC1 [0] Lang.en).calls ∧
      envC1.backend (FileContent.raw [0]) none = Except.ok "hello" := by
  refine ⟨by decide, by decide, rfl⟩

/-- C1 (amended): when the Direct strategy fails, the Unhinted strategy is
attempted before any terminal failure only if librosa is available and the
Re-decoded stage also fails; when librosa is unavailable the direct error is
re-raised immediately as the terminal result, with no unhinted attempt. -/
theorem C1_theorem (env : Env) (b : Bytes) (lang : Lang) (dErr : Err)
    (hd : env.backend (FileContent.raw b) (kwargsOf lang) = Except.error dErr) :
    (env.librosaAvailable = true → redecodedStageFails env b (kwargsOf lang) →
      Call.mk (FileContent.raw b) none ∈ (uploadChain env b lang).calls) ∧
    (env.librosaAvailable = false →
      uploadChain env b lang =
        ⟨UploadOutcome.failed dErr, [⟨FileContent.raw b, kwargsOf lang⟩],
         [Event.warnDirect dErr]⟩) := by
  constructor
  · intro hl hr
    unfold redecodedStageFails at hr
    cases hld : env.librosaLoad b with
    | ok s =>
      rw [hld] at hr
      obtain ⟨e2, he2⟩ := hr
      cases h3 : env.backend (FileContent.raw b) none with
      | ok t => simp [uploadChain, stage2, stage3, hd, hl, hld, he2, h3]
      | error e3 => simp [uploadChain, stage2, stage3, hd, hl, hld, he2, h3]
    | error el =>
      cases h3 : env.backend (FileContent.raw b) none with
      | ok t => simp [uploadChain, stage2, stage3, hd, hl, hld, h3]
      | error e3 => simp [uploadChain, stage2, stage3, hd, hl, hld, h3]
  · intro hl
    simp [uploadChain, hd, hl]

/-- C1 witness: a concrete environment with librosa available where Direct
and Re-decoded fail makes the unhinted call. -/
theorem C1_witness :
    Call.mk (FileContent.raw [0]) none ∈ (uploadChain envC1w [0] Lang.en).calls :=
  (C1_theorem envC1w [0] Lang.en "e1" rfl).1 rfl ⟨"e2", rfl⟩

/-- C2 counterexample: with a backend failing on all three strategies with
messages e1, e2 and e3, the terminal outcome carries only the last message e3;
the first two causes, being distinct strings, are absent from it. -/
theorem C2_counterexample :
    (uploadChain envC2 [0] Lang.en).outcome = UploadOutcome.failed "e3" ∧
      ("e3" : String) ≠ "e1" ∧ ("e3" : String) ≠ "e2" := by
  refine ⟨by decide, by decide, by decide⟩

/-- C2 (amended): when all three strategies fail, the terminal result is the
error raised by the last (Unhinted) attempt alone; the Direct and Re-decoded
causes are recorded as warnings along the way but are not aggregated into the
terminal result. -/
theorem C2_theorem (env : Env) (b : Bytes) (lang : Lang)
    (e1 e2 e3 : Err) (s : List ℚ)
    (hl : env.librosaAvailable = true)
    (hd : env.backend (FileContent.raw b) (kwargsOf lang) = Except.error e1)
    (hload : env.librosaLoad b = Except.ok s)
    (hw : env.backend (FileContent.wav 16000 (s.map float_to_int16)) (kwargsOf lang)
      = Except.error e2)
    (hu : env.backend (FileContent.raw b) none = Except.error e3) :
    uploadChain env b lang =
      ⟨UploadOutcome.failed e3,
       [⟨FileContent.raw b, kwargsOf lang⟩,
        ⟨FileContent.wav 16000 (s.map float_to_int16), kwargsOf lang⟩,
        ⟨FileContent.raw b, none⟩],
       [Event.warnDirect e1, Event.warnLibrosa e2, Event.errorAll e3]⟩ := by
  simp [uploadChain, stage2, stage3, hd, hl, hload, hw, hu]

/-- C2 witness: the amended statement at a concrete all-failing environment. -/
theorem C2_witness :
    uploadChain envC2 [0] Lang.en =
      ⟨UploadOutcome.failed "e3",
       [⟨FileContent.raw [0], some Lang.en⟩,
        ⟨FileContent.wav 16000 [], some Lang.en⟩,
        ⟨FileContent.raw [0], none⟩],
       [Event.warnDirect "e1", Event.warnLibrosa "e2", Event.errorAll "e3"]⟩ :=
  C2_theorem envC2 [0] Lang.en "e1" "e2" "e3" [] rfl rfl rfl rfl rfl

/-- C3 counterexample: a backend that succeeds and returns the whitespace-only
string consisting of one space yields a displayed transcription, not the
no-speech outcome: the empty string and whitespace-only strings are not
treated the same way. -/
theorem C3_counterexample :
    (uploadChain envC3 [0] Lang.auto).outcome = UploadOutcome.transcribed " " ∧
      (uploadChain envC3 [0] Lang.auto).outcome ≠ UploadOutcome.noResult := by
  refine ⟨by decide, by decide⟩

/-- C3 (amended): when the backend succeeds on the direct attempt, exactly one
call is made (no re-attempt); the empty string yields the distinct
no-transcription-result outcome rather than a failure, while any non-empty
string, including whitespace-only ones, is displayed as the transcription. -/
theorem C3_theorem (env : Env) (b : Bytes) (lang : Lang) (t : String)
    (h : env.backend (FileContent.raw b) (kwargsOf lang) = Except.ok t) :
    (uploadChain env b lang).calls = [⟨FileContent.raw b, kwargsOf lang⟩] ∧
    (t = "" → (uploadChain env b lang).outcome = UploadOutcome.noResult) ∧
    (t ≠ "" → (uploadChain env b lang).outcome = UploadOutcome.transcribed t) := by
  refine ⟨?_, ?_, ?_⟩
  · simp [uploadChain, h]
  · intro ht
    simp [uploadChain, h, displayOutcome, ht]
  · intro ht
    simp [uploadChain, h, displayOutcome, ht]

/-- C3 witness: the amended statement at a concrete environment whose backend
returns the empty string. -/
theorem C3_witness :
    (uploadChain envC3w [0] Lang.auto).calls = [⟨FileContent.raw [0], none⟩] ∧
      (uploadChain envC3w [0] Lang.auto).outcome = UploadOutcome.noResult :=
  ⟨(C3_theorem envC3w [0] Lang.auto "" rfl).1,
   (C3_theorem envC3w [0] Lang.auto "" rfl).2.1 rfl⟩

/-- C5 counterexample: the uploaded bytes are saved as-is and the Direct
strategy runs on that raw file, not on a normalized one: with a backend that
succeeds directly, the only call made is on the raw uploaded bytes, even
though the decode capability would have normalized them to the int16 WAV with
sample 16383 (the conversion of the float sample one half). -/
theorem C5_counterexample :
    (uploadChain envC5 [7] Lang.en).calls = [⟨FileContent.raw [7], some Lang.en⟩] ∧
      envC5.librosaLoad [7] = Except.ok [(1 : ℚ)/2] ∧
      List.map float_to_int16 [(1 : ℚ)/2] = [16383] ∧
      FileContent.raw [7] ≠ FileContent.wav 16000 [16383] := by
  refine ⟨by decide, rfl, ?_, by decide⟩
  norm_num [float_to_int16, truncQ, wrap16]

/-- C5 (amended): no normalization precedes the chain: the first (Direct)
attempt is always on the raw uploaded bytes with the language keyword, and any
normalized WAV appearing later in the chain is exactly the 16 kHz
int16-converted librosa decode produced inside the Re-decoded strategy. -/
theorem C5_theorem (env : Env) (b : Bytes) (lang : Lang) :
    (uploadChain env b lang).calls.head? = some ⟨FileContent.raw b, kwargsOf lang⟩ ∧
    ∀ c ∈ (uploadChain env b lang).calls, ∀ sr s, c.content = FileContent.wav sr s →
      sr = 16000 ∧ ∃ q, env.librosaLoad b = Except.ok q ∧ s = q.map float_to_int16 := by
  constructor
  · cases hb : env.backend (FileContent.raw b) (kwargsOf lang) with
    | ok t => simp [uploadChain, hb]
    | error e =>
      by_cases hl : env.librosaAvailable
      · cases hld : env.librosaLoad b with
        | ok s =>
          cases hw : env.backend (FileContent.wav 16000 (s.map float_to_int16)) (kwargsOf lang) with
          | ok t => simp [uploadChain, stage2, hb, hl, hld, hw]
          | error e2 =>
            cases h3 : env.backend (FileContent.raw b) none with
            | ok t => simp [uploadChain, stage2, stage3, hb, hl, hld, hw, h3]
            | error e3 => simp [uploadChain, stage2, stage3, hb, hl, hld, hw, h3]
        | error el =>
          cases h3 : env.backend (FileContent.raw b) none with
          | ok t => simp [uploadChain, stage2, stage3, hb, hl, hld, h3]
          | error e3 => simp [uploadChain, stage2, stage3, hb, hl, hld, h3]
      · simp [uploadChain, hb, hl]
  · intro c hc sr s hcs
    rcases uploadChain_calls_shape env b lang c hc with h | h | ⟨q, hq, h⟩ <;> subst h
    · simp at hcs
    · simp at hcs
    · simp only [FileContent.wav.injEq] at hcs
      exact ⟨hcs.1.symm, q, hq, hcs.2.symm⟩

/-- C5 witness: in a concrete environment where Direct fails and the
Re-decoded stage runs, the head call is on the raw bytes and the WAV call is
the normalized librosa decode. -/
theorem C5_witness :
    (uploadChain envC6 [0] Lang.en).calls.head? = some ⟨FileContent.raw [0], some Lang.en⟩ ∧
      (16000 = 16000 ∧ ∃ q, envC6.librosaLoad [0] = Except.ok q ∧
        ([] : List ℤ) = q.map float_to_int16) :=
  ⟨(C5_theorem envC6 [0] Lang.en).1,
   (C5_theorem envC6 [0] Lang.en).2 ⟨FileContent.wav 16000 [], some Lang.en⟩
     (by decide) 16000 [] rfl⟩

/-- C6: when the backend fails on Direct but succeeds on the Re-decoded
strategy, the surfaced result is the display of the Re-decoded text, the
direct failure is recorded as a warning, and no failure outcome is surfaced. -/
theorem C6_theorem (env : Env) (b : Bytes) (lang : Lang)
    (dErr : Err) (s : List ℚ) (t : String)
    (hl : env.librosaAvailable = true)
    (hd : env.backend (FileContent.raw b) (kwargsOf lang) = Except.error dErr)
    (hload : env.librosaLoad b = Except.ok s)
    (hw : env.backend (FileContent.wav 16000 (s.map float_to_int16)) (kwargsOf lang)
      = Except.ok t) :
    (uploadChain env b lang).outcome = displayOutcome t ∧
    Event.warnDirect dErr ∈ (uploadChain env b lang).warnings ∧
    ∀ e, (uploadChain env b lang).outcome ≠ UploadOutcome.failed e := by
  have hx : uploadChain env b lang =
      ⟨displayOutcome t,
       [⟨FileContent.raw b, kwargsOf lang⟩,
        ⟨FileContent.wav 16000 (s.map float_to_int16), kwargsOf lang⟩],
       [Event.warnDirect dErr]⟩ := by
    simp [uploadChain, stage2, hd, hl, hload, hw]
  rw [hx]
  refine ⟨rfl, by simp, ?_⟩
  intro e
  unfold displayOutcome
  split <;> simp

/-- C6 witness: a concrete run where Direct fails with e1 and the Re-decoded
WAV transcribes successfully. -/
theorem C6_witness :
    (uploadChain envC6 [0] Lang.en).outcome = displayOutcome "redecoded text" ∧
      Event.warnDirect "e1" ∈ (uploadChain envC6 [0] Lang.en).warnings ∧
      (uploadChain envC6 [0] Lang.en).outcome ≠ UploadOutcome.failed "e1" :=
  ⟨(C6_theorem envC6 [0] Lang.en "e1" [] "redecoded text" rfl rfl rfl rfl).1,
   (C6_theorem envC6 [0] Lang.en "e1" [] "redecoded text" rfl rfl rfl rfl).2.1,
   (C6_theorem envC6 [0] Lang.en "e1" [] "redecoded text" rfl rfl rfl rfl).2.2 "e1"⟩

/-- C8: for every requested duration in the slider range, the capture is
asked for duration * 16000 frames and, per the capture-device contract,
returns exactly that many samples, one channel, at 16000 Hz. -/
theorem C8_theorem (device : Nat → ℚ) (duration : Nat)
    (h1 : 1 ≤ duration) (h2 : duration ≤ 30) :
    (recordAudio device duration).samples.length = duration * 16000 ∧
    (recordAudio device duration).channels = 1 ∧
    (recordAudio device duration).samplerate = 16000 := by
  refine ⟨?_, rfl, rfl⟩
  simp [recordAudio, sd_rec_wait]

/-- C8 witness: the default slider value of five seconds captures exactly
5 * 16000 samples of mono 16 kHz audio. -/
theorem C8_witness :
    (recordAudio silentDevice 5).samples.length = 5 * 16000 ∧
      (recordAudio silentDevice 5).channels = 1 ∧
      (recordAudio silentDevice 5).samplerate = 16000 :=
  C8_theorem silentDevice 5 (by norm_num) (by norm_num)

/-- C9: the live-recording path makes exactly one backend call (on the freshly
written WAV of the captured audio, with the language keyword), and if that
call raises, the failure is surfaced immediately as the recording-failed
outcome: no fallback strategy exists on this path. -/
theorem C9_theorem (backend : FileContent → Option Lang → Except Err String)
    (device : Nat → ℚ) (duration : Nat) (lang : Lang) :
    (recordPath backend device duration lang).calls.length = 1 ∧
    ∀ e, backend (FileContent.wav 16000
        ((recordAudio device duration).samples.map float_to_int16)) (kwargsOf lang)
      = Except.error e →
      (recordPath backend device duration lang).outcome
        = RecordOutcome.recordingFailed e := by
  constructor
  · cases hb : backend (FileContent.wav 16000
        ((recordAudio device duration).samples.map float_to_int16)) (kwargsOf lang) with
    | ok t => simp [recordPath, hb]
    | error e => simp [recordPath, hb]
  · intro e he
    simp [recordPath, he]

/-- C9 witness: with an always-failing backend, a five-second recording makes
one call and surfaces the recording failure directly. -/
theorem C9_witness :
    (recordPath failingBackend silentDevice 5 Lang.en).calls.length = 1 ∧
      (recordPath failingBackend silentDevice 5 Lang.en).outcome
        = RecordOutcome.recordingFailed "mic broke" :=
  ⟨(C9_theorem failingBackend silentDevice 5 Lang.en).1,
   (C9_theorem failingBackend silentDevice 5 Lang.en).2 "mic broke" rfl⟩

/-- C10: every call of the upload chain whose file is a raw (non-re-encoded)
file carries exactly the uploaded bytes, unchanged: the Direct and Unhinted
strategies read the temporary file holding the upload as-is, and only the
Re-decoded strategy introduces a different (WAV) file. -/
theorem C10_theorem (env : Env) (b : Bytes) (lang : Lang) :
    ∀ c ∈ (uploadChain env b lang).calls, ∀ bs, c.content = FileContent.raw bs → bs = b := by
  intro c hc bs hcs
  rcases uploadChain_calls_shape env b lang c hc with h | h | ⟨q, hq, h⟩ <;> subst h
  · simp only [FileContent.raw.injEq] at hcs
    exact hcs.symm
  · simp only [FileContent.raw.injEq] at hcs
    exact hcs.symm
  · simp at hcs

/-- C10 witness: the unhinted call of a concrete exhausted run carries the
uploaded bytes unchanged. -/
theorem C10_witness :
    Call.mk (FileContent.raw [0]) none ∈ (uploadChain envC2 [0] Lang.en).calls ∧
      ([0] : Bytes) = [0] :=
  ⟨by decide,
   C10_theorem envC2 [0] Lang.en ⟨FileContent.raw [0], none⟩ (by decide) [0] rfl⟩

end VoiceTranscriber
